import Mathlib

/-!
Shallow embedding of the TCP intercepting proxy engine from `proxy.py`
(classes `Proxy` and `SocketHandler`, plus `ESocketRole` from
`enum_socket_role.py`).

Modelling conventions:
* Byte buffers are lists of naturals (`Bytes`); the wire written to a
  socket via `sendall` is the flat byte stream accumulated on the handler.
* Mutable Python objects become Lean structures; each method becomes a
  function from the old state (plus the inputs the OS or peer supplies,
  such as the outcome of `accept()` or `recv()`) to the new state.
* The callbacks stored in `self._packetHandler` / `self._outputHandler`
  are passed as explicit parameters so that states stay first-order and
  decidable; the human-readable lines handed to the output sink are
  accumulated in an explicit `List String`.
* Calls whose exact text is runtime dependent (`traceback.format_exc()`)
  are modelled by a fixed formatting function.
* Thread scheduling is modelled by running the loop bodies as atomic
  steps: each datatype-valued function below is the translation of one
  lock-protected block or one straight-line body from the source.
* Ghost events (`REvent`) record which socket/thread primitives a step
  invokes (`accept()`, `start()`, `stop()`, `join()`, `connect()`), in
  program order, so that temporal claims about the accept loop are
  statable; they change no state.
-/

/-- Byte strings, as in Python `bytes`. -/
abbrev Bytes := List Nat

/-- `ESocketRole` from `enum_socket_role.py`: which side of the proxy a
socket represents. -/
inductive ESocketRole where
  | SERVER
  | CLIENT
deriving DecidableEq

/-- The `.name` attribute of the Python enum member. -/
def ESocketRole.name : ESocketRole → String
  | .SERVER => "SERVER"
  | .CLIENT => "CLIENT"

/-- State of a `SocketHandler` (one side's connected socket, its FIFO
outbound queue (`SimpleQueue`), its lock-protected running flag, and the
byte stream already delivered to the socket by `sendall`).  `sockAlive`
is `self._sock is not None`: the run loop's cleanup sets `_sock = None`
after closing. `host`/`port` are captured once from `getpeername()` in
`__init__`. -/
structure SocketHandler where
  role : ESocketRole
  host : String
  port : Nat
  dataQueue : List Bytes
  running : Bool
  sockAlive : Bool
  wire : Bytes
  readBufferSize : Nat
deriving DecidableEq

/-- `SocketHandler.__init__(sock, role, proxy, outputHandler, packetHandler)`:
captures the peer name, starts with an empty queue, not running, socket
present.  `peer` is `sock.getpeername()`. -/
def SocketHandler.init (role : ESocketRole) (peer : String × Nat) : SocketHandler :=
  { role := role
    host := peer.1
    port := peer.2
    dataQueue := []
    running := false
    sockAlive := true
    wire := []
    readBufferSize := 65535 }

/-- `SocketHandler.__str__`. -/
def SocketHandler.str (h : SocketHandler) : String :=
  h.role.name ++ " [" ++ h.host ++ ":" ++ toString h.port ++ "]"

/-- `SocketHandler.send(data)`: `self._dataQueue.put(data)`.  A
`SimpleQueue` put appends at the tail and never fails. -/
def SocketHandler.send (h : SocketHandler) (data : Bytes) : SocketHandler :=
  { h with dataQueue := h.dataQueue ++ [data] }

/-- `SocketHandler.getHost()`. -/
def SocketHandler.getHost (h : SocketHandler) : String := h.host

/-- `SocketHandler.getPort()`. -/
def SocketHandler.getPort (h : SocketHandler) : Nat := h.port

/-- `SocketHandler.stop()`: flips the running flag under the handler
lock; socket cleanup is left to the handler's own loop. -/
def SocketHandler.stop (h : SocketHandler) : SocketHandler :=
  { h with running := false }

/-- The guard and flag-set at the top of `SocketHandler.run()`
(lines 302-307): raises `RuntimeError` when the socket has been cleared
by a previous shutdown, else sets the running flag. -/
def SocketHandler.runEntry (h : SocketHandler) : Except String SocketHandler :=
  if h.sockAlive then .ok { h with running := true }
  else .error "Socket has expired. Can not start again after shutdown."

/-- Output line produced by the except-branch of `_recvData`. -/
def recvExcMsg (h : SocketHandler) (e : String) : String :=
  "[EXCEPT] - recv data from " ++ h.str ++ ": " ++ e

/-- Output line produced when the packet handler raises inside
`_recvData`. -/
def parseExcMsg (h : SocketHandler) (e : String) : String :=
  "[EXCEPT] - parse data from " ++ h.str ++ ": " ++ e

/-- Output line produced by the except-branch of `_sendQueue`. -/
def xmitExcMsg (h : SocketHandler) : String :=
  "[EXCEPT] - xmit data to " ++ h.str

/-- Stand-in for `traceback.format_exc()`, whose exact text is runtime
dependent; only the fact that a diagnostic trace line is appended
matters to the engine. -/
def formatExc (e : String) : String :=
  "Traceback (most recent call last): " ++ e

/-- The drain loop of `SocketHandler._sendQueue`: repeatedly `get` the
head of the queue and `sendall` it.  `canSend m` tells whether the
`sendall` of message `m` succeeds; on the first failure the except
branch leaves the loop with the remaining queue intact (the failing
message was already dequeued) and reports abort.  Returns the remaining
queue, the bytes now on the wire, and the abort flag. -/
def SocketHandler.sendQueueAux (canSend : Bytes → Bool) :
    List Bytes → Bytes → List Bytes × Bytes × Bool
  | [], wire => ([], wire, false)
  | message :: rest, wire =>
    if canSend message then SocketHandler.sendQueueAux canSend rest (wire ++ message)
    else (rest, wire, true)

/-- `SocketHandler._sendQueue(output)`: drain the queue to the socket;
on an exception append the xmit error line and return abort. -/
def SocketHandler.sendQueue (canSend : Bytes → Bool) (h : SocketHandler)
    (output : List String) : SocketHandler × List String × Bool :=
  let r := SocketHandler.sendQueueAux canSend h.dataQueue h.wire
  ({ h with dataQueue := r.1, wire := r.2.1 },
   if r.2.2 then output ++ [xmitExcMsg h] else output,
   r.2.2)

/-- The cleanup epilogue of `SocketHandler.run()` (lines 345-357): after
the loop exits, best-effort drain of the remaining queue, then close the
socket and clear the reference (`self._sock = None`). -/
def SocketHandler.cleanup (canSend : Bytes → Bool) (h : SocketHandler) : SocketHandler :=
  let r := SocketHandler.sendQueue canSend h []
  { r.1 with sockAlive := false }

/-- State of a `Proxy` endpoint (class `Proxy` in `proxy.py`): binding
and target captured in `__init__`, the connected and shutdown flags, the
listening socket (`bindSockOpen` is `self._bindSocket` being open), and
the exclusively owned client/server `SocketHandler`s. -/
structure Proxy where
  bindAddr : String
  remoteAddr : String
  localPort : Nat
  remotePort : Nat
  connected : Bool
  isShutdown : Bool
  client : Option SocketHandler
  server : Option SocketHandler
  bindSockOpen : Bool
deriving DecidableEq

/-- `Proxy.__init__(bindAddr, remoteAddr, localPort, remotePort, ...)`
on the path where `_bind` succeeds: flags cleared, no handlers, the
listening socket bound and listening. -/
def Proxy.init (bindAddr remoteAddr : String) (localPort remotePort : Nat) : Proxy :=
  { bindAddr := bindAddr
    remoteAddr := remoteAddr
    localPort := localPort
    remotePort := remotePort
    connected := false
    isShutdown := false
    client := none
    server := none
    bindSockOpen := true }

/-- `Proxy.getIsConnected()`: returns `self._connected`. -/
def Proxy.getIsConnected (p : Proxy) : Bool := p.connected

/-- `Proxy.shutdown()`: only sets the shutdown flag; the run loop notices
it on its next iteration. -/
def Proxy.shutdown (p : Proxy) : Proxy := { p with isShutdown := true }

/-- `Proxy.getClient()`: `(None, None)` when no client handler exists,
else the peer host/port captured at the handler's construction. -/
def Proxy.getClient (p : Proxy) : Option String × Option Nat :=
  match p.client with
  | none => (none, none)
  | some c => (some c.getHost, some c.getPort)

/-- `Proxy.getServer()`: `(None, None)` when no server handler exists,
else the peer host/port captured at the handler's construction. -/
def Proxy.getServer (p : Proxy) : Option String × Option Nat :=
  match p.server with
  | none => (none, none)
  | some s => (some s.getHost, some s.getPort)

/-- `Proxy.getBind()`. -/
def Proxy.getBind (p : Proxy) : String × Nat := (p.bindAddr, p.localPort)

/-- The handler selection in `Proxy.sendData`:
`self._client if destination == ESocketRole.CLIENT else self._server`. -/
def Proxy.handlerOf (p : Proxy) (destination : ESocketRole) : Option SocketHandler :=
  if destination = ESocketRole.CLIENT then p.client else p.server

/-- `Proxy.sendData(destination, data)`: no-op when the selected handler
is `None`, else `sh.send(data)` (the updated handler state is written
back in place of the aliased Python object). -/
def Proxy.sendData (p : Proxy) (destination : ESocketRole) (data : Bytes) : Proxy :=
  match p.handlerOf destination with
  | none => p
  | some sh =>
    if destination = ESocketRole.CLIENT then { p with client := some (sh.send data) }
    else { p with server := some (sh.send data) }

/-- `Proxy.disconnect()` (taken under the endpoint lock): stop whichever
handlers exist, drop the references, clear the connected flag. -/
def Proxy.disconnect (p : Proxy) : Proxy :=
  { p with client := none, server := none, connected := false }

/-- Ghost events recording the socket/thread primitives invoked by one
step of the accept loop, in program order. -/
inductive REvent where
  | acceptCall
  | stopClient
  | joinClient
  | stopServer
  | joinServer
  | startClient
  | startServer
  | connectCall
deriving DecidableEq

/-- Outcome the OS gives to `self._bindSocket.accept()` inside
`Proxy._waitForClient`: either the 3-second timeout elapses with no
client, or a client with the given peer name is accepted. -/
inductive AcceptOutcome where
  | timeout
  | accepted (peer : String × Nat)
deriving DecidableEq

/-- `Proxy._waitForClient()`: call `accept()`; on timeout report no new
client.  Otherwise stop and drop whatever old client and server handlers
exist, then construct the new client handler from the accepted socket
(`ctorOk` is whether `getpeername` inside the constructor succeeds;
on `OSError`/`TimeoutError` the method reports no new client).
Returns (newClientHasConnected, new state, events). -/
def Proxy.waitForClient (p : Proxy) (acc : AcceptOutcome) (ctorOk : Bool) :
    Bool × Proxy × List REvent :=
  match acc with
  | .timeout => (false, p, [.acceptCall])
  | .accepted peer =>
    let cEvents : List REvent :=
      match p.client with
      | some _ => [.stopClient, .joinClient]
      | none => []
    let sEvents : List REvent :=
      match p.server with
      | some _ => [.stopServer, .joinServer]
      | none => []
    let p1 := { p with client := none, server := none }
    if ctorOk then
      (true, { p1 with client := some (SocketHandler.init .CLIENT peer) },
       [.acceptCall] ++ cEvents ++ sEvents)
    else
      (false, p1, [.acceptCall] ++ cEvents ++ sEvents)

/-- `Proxy._connect()`: raises `RuntimeError` when a server handler
already exists; otherwise dials the remote (`connOk` is whether
`sock.connect` succeeds) and on success installs the server handler,
whose peer name is the remote address/port. -/
def Proxy.connect (p : Proxy) (connOk : Bool) : Except String (Bool × Proxy) :=
  if p.server.isSome then
    .error "Already connected."
  else if connOk then
    .ok (true, { p with server := some (SocketHandler.init .SERVER (p.remoteAddr, p.remotePort)) })
  else
    .ok (false, p)

/-- One iteration of the accept loop in `Proxy.run()` (the body of
`while not self._isShutdown`, lines 87-113, status-line strings elided):
always calls `_waitForClient`; when a new client connected, takes the
endpoint lock, dials the remote, and on failure discards the
just-accepted client by `start()`, `stop()`, `join()`, clearing the
reference; on success starts both handlers and sets the connected flag.
The run-entry socket guard trivially passes for the freshly constructed
handlers started here, so `start()` is modelled as setting the running
flag.  A `RuntimeError` escaping `_connect` propagates as `.error`. -/
def Proxy.runIteration (p : Proxy) (acc : AcceptOutcome) (ctorOk connOk : Bool) :
    Except String (Proxy × List REvent) :=
  let w := p.waitForClient acc ctorOk
  if !w.1 then .ok (w.2.1, w.2.2)
  else
    match w.2.1.connect connOk with
    | .error e => .error e
    | .ok (true, p2) =>
      .ok ({ p2 with
              client := p2.client.map (fun c => { c with running := true })
              server := p2.server.map (fun s => { s with running := true })
              connected := true },
           w.2.2 ++ [.connectCall, .startClient, .startServer])
    | .ok (false, p2) =>
      .ok ({ p2 with client := none },
           w.2.2 ++ [.connectCall, .startClient, .stopClient, .joinClient])

/-- The shutdown epilogue of `Proxy.run()` (lines 116-128), reached when
the loop guard sees the shutdown flag: close the listening socket, then
stop, join and drop whichever handlers exist.  Note it does not touch
`self._connected`. -/
def Proxy.runShutdown (p : Proxy) : Proxy × List REvent :=
  let cEvents : List REvent :=
    match p.client with
    | some _ => [.stopClient, .joinClient]
    | none => []
  let sEvents : List REvent :=
    match p.server with
    | some _ => [.stopServer, .joinServer]
    | none => []
  ({ p with bindSockOpen := false, client := none, server := none },
   cEvents ++ sEvents)

/-- Behaviour of the packet-interception callback
`self._packetHandler(data, self._proxy, self._ROLE)`: given the packet,
the current endpoint state and the origin role, it returns the endpoint
state after its side effects together with `some e` when it raises an
exception rendered as `e` (partial side effects before the raise are
kept, as in Python). -/
abbrev PH := Bytes → Proxy → ESocketRole → Proxy × Option String

/-- Outcome the OS gives to `self._sock.recv(...)` inside
`SocketHandler._recvData`: bytes (possibly zero-length, meaning the peer
closed), `BlockingIOError`, or another exception rendered as a string. -/
inductive RecvResult where
  | bytes (data : Bytes)
  | blockingErr
  | excErr (msg : String)
deriving DecidableEq

/-- `SocketHandler._recvData(output)`: receive; a zero-length read
raises `IOError('Socket Disconnected')`, caught by the broad except
which records the error line and sets abort; `BlockingIOError` is
ignored; any other receive exception records the error line and sets
abort.  If truthy data was received, dispatch it to the packet handler;
an exception there is caught, the error line and a diagnostic trace are
appended, and `self._proxy.disconnect()` is called.  Returns
(output, proxy, data-or-False, abort). -/
def SocketHandler.recvData (ph : PH) (h : SocketHandler) (r : RecvResult)
    (p : Proxy) (output : List String) :
    List String × Proxy × Option Bytes × Bool :=
  match r with
  | .bytes d =>
    if d.isEmpty then
      (output ++ [recvExcMsg h "Socket Disconnected"], p, some d, true)
    else
      match ph d p h.role with
      | (p1, none) => (output, p1, some d, false)
      | (p1, some e) =>
        (output ++ [parseExcMsg h e, formatExc e], p1.disconnect, some d, false)
  | .blockingErr => (output, p, none, false)
  | .excErr e => (output ++ [recvExcMsg h e], p, none, true)

/-- One iteration of the handler loop in `SocketHandler.run()`
(lines 311-344): poll the socket (`readyToRead`/`readyToWrite` are what
`_getSocketStatus` reports), receive and dispatch if read-ready, drain
the queue if non-empty and write-ready, and on either abort flag call
`self._proxy.disconnect()`.  Returns (handler, proxy, output lines). -/
def SocketHandler.loopIteration (ph : PH) (canSend : Bytes → Bool)
    (h : SocketHandler) (readyToRead readyToWrite : Bool) (r : RecvResult)
    (p : Proxy) : SocketHandler × Proxy × List String :=
  let recvR :=
    if readyToRead then SocketHandler.recvData ph h r p []
    else ([], p, none, false)
  let queueEmpty := h.dataQueue.isEmpty
  let sendR :=
    if !queueEmpty && readyToWrite then SocketHandler.sendQueue canSend h recvR.1
    else (h, recvR.1, false)
  let abort := recvR.2.2.2
  let abort2 := sendR.2.2
  let p2 := if abort || abort2 then recvR.2.1.disconnect else recvR.2.1
  (sendR.1, p2, sendR.2.1)

/-- Endpoint fixture: a freshly constructed, successfully bound proxy. -/
def pListen : Proxy := Proxy.init "127.0.0.1" "203.0.113.5" 8080 443

/-- A handler in the state the accept loop leaves it after `start()`:
freshly constructed, running flag set by the top of its run loop. -/
def startedHandler (role : ESocketRole) (peer : String × Nat) : SocketHandler :=
  { SocketHandler.init role peer with running := true }

/-- Endpoint fixture: `pListen` after one accept-loop iteration in which
a client was accepted and the remote connect succeeded, i.e. a reachable
Connected state. -/
def pConn : Proxy :=
  ((pListen.runIteration (.accepted ("192.0.2.7", 50123)) true true).toOption.map
    Prod.fst).getD pListen

/-- Handler fixture for receive-path scenarios. -/
def hRecv : SocketHandler := SocketHandler.init .CLIENT ("198.51.100.9", 4242)

/-- Client handler fixture that has been started, stopped, and cleaned
up by its own loop: socket closed and reference cleared. -/
def hClosed : SocketHandler :=
  SocketHandler.cleanup (fun _ => true)
    (SocketHandler.stop { SocketHandler.init .CLIENT ("192.0.2.7", 50123) with running := true })

/-- Packet-handler fixture that always raises. -/
def phBoom : PH := fun _ pr _ => (pr, some "boom")

/-- Packet-handler fixture that never raises and has no side effects. -/
def phNone : PH := fun _ pr _ => (pr, none)

/-- Packet-handler fixture that agrees with `phNone` on non-empty
packets but would raise on an empty packet. -/
def phEmptyDiff : PH := fun d pr _ =>
  if d = [] then (pr.disconnect, some "empty") else (pr, none)

/-- Draining with every `sendall` succeeding empties the queue and
appends the queued buffers to the wire in FIFO order. -/
theorem sendQueueAux_all_ok (q : List Bytes) (wire : Bytes) :
    SocketHandler.sendQueueAux (fun _ => true) q wire = ([], wire ++ q.flatten, false) := by
  induction q generalizing wire with
  | nil => simp [SocketHandler.sendQueueAux]
  | cons m rest ih => simp [SocketHandler.sendQueueAux, ih]

/-- C3: for every role and buffers b1, b2, enqueueing b1 then b2 via
sendData places them at the tail of that role's queue in that order, and
the handler's queue drain writes b1 to the socket entirely before b2,
after everything enqueued earlier: enqueue order equals send order. -/
theorem sendData_fifo_order (p : Proxy) (role : ESocketRole) (sh : SocketHandler)
    (b1 b2 : Bytes) (hrole : p.handlerOf role = some sh) :
    ((p.sendData role b1).sendData role b2).handlerOf role = some ((sh.send b1).send b2)
    ∧ ((sh.send b1).send b2).dataQueue = sh.dataQueue ++ [b1, b2]
    ∧ (SocketHandler.sendQueue (fun _ => true) ((sh.send b1).send b2) []).1.wire
        = sh.wire ++ sh.dataQueue.flatten ++ b1 ++ b2 := by
  refine ⟨?_, by simp [SocketHandler.send], ?_⟩
  · cases role <;>
      simp_all [Proxy.sendData, Proxy.handlerOf, SocketHandler.send]
  · simp [SocketHandler.sendQueue, SocketHandler.send, sendQueueAux_all_ok]

/-- Concrete instance of the FIFO ordering theorem on the reachable
connected endpoint fixture. -/
theorem sendData_fifo_order_witness :
    pConn.handlerOf .CLIENT = some (startedHandler .CLIENT ("192.0.2.7", 50123))
    ∧ (((pConn.sendData .CLIENT [1, 2]).sendData .CLIENT [3]).handlerOf .CLIENT
        = some (((startedHandler .CLIENT ("192.0.2.7", 50123)).send [1, 2]).send [3])
      ∧ (((startedHandler .CLIENT ("192.0.2.7", 50123)).send [1, 2]).send [3]).dataQueue
        = (startedHandler .CLIENT ("192.0.2.7", 50123)).dataQueue ++ [[1, 2], [3]]
      ∧ (SocketHandler.sendQueue (fun _ => true)
            (((startedHandler .CLIENT ("192.0.2.7", 50123)).send [1, 2]).send [3]) []).1.wire
        = (startedHandler .CLIENT ("192.0.2.7", 50123)).wire
          ++ (startedHandler .CLIENT ("192.0.2.7", 50123)).dataQueue.flatten ++ [1, 2] ++ [3]) :=
  ⟨by decide,
   sendData_fifo_order pConn .CLIENT (startedHandler .CLIENT ("192.0.2.7", 50123))
     [1, 2] [3] (by decide)⟩

/-- C7 counterexample: on a handler that has been stopped and whose
socket has been closed and cleared by its loop's cleanup, `send` does
not raise: it returns the ordinary updated state, silently enqueueing
the data onto the queue (a plain `SimpleQueue.put`), refuting the claim
that such a send fails loudly. -/
theorem send_after_close_silent_cex :
    hClosed.sockAlive = false ∧ hClosed.running = false
    ∧ hClosed.send [80, 73] = { hClosed with dataQueue := [[80, 73]] } := by
  decide

/-- C7 amended: starting a handler again after its socket was cleared by
shutdown fails loudly (run() raises RuntimeError), but send() on a
stopped-and-closed handler never raises: it silently appends to the
queue, which nothing will ever drain. -/
theorem start_twice_raises_send_silent (h : SocketHandler) (d : Bytes)
    (hs : h.sockAlive = false) :
    h.runEntry = .error "Socket has expired. Can not start again after shutdown."
    ∧ h.send d = { h with dataQueue := h.dataQueue ++ [d] } :=
  ⟨by simp [SocketHandler.runEntry, hs], rfl⟩

/-- Concrete instance of the amended C7 theorem on the closed handler
fixture. -/
theorem start_twice_raises_send_silent_witness :
    hClosed.sockAlive = false
    ∧ (hClosed.runEntry = .error "Socket has expired. Can not start again after shutdown."
      ∧ hClosed.send [1] = { hClosed with dataQueue := hClosed.dataQueue ++ [[1]] }) :=
  ⟨by decide, start_twice_raises_send_silent hClosed [1] (by decide)⟩

/-- C8: sendData on a role whose handler does not exist returns the
state unchanged (a silent no-op that cannot raise or block, the model
being a total function), and when the handler exists the data is
appended to that handler's outbound queue. -/
theorem sendData_missing_handler_noop (p : Proxy) (role : ESocketRole) (d : Bytes) :
    (p.handlerOf role = none → p.sendData role d = p)
    ∧ (∀ sh, p.handlerOf role = some sh →
        (p.sendData role d).handlerOf role = some (sh.send d)) := by
  constructor
  · intro h
    simp [Proxy.sendData, h]
  · intro sh h
    cases role <;> simp_all [Proxy.sendData, Proxy.handlerOf]

/-- Concrete instance of the sendData no-op theorem: on the listening
fixture (no client handler) sendData is the identity; on the connected
fixture the server handler's queue receives the data. -/
theorem sendData_missing_handler_noop_witness :
    pListen.handlerOf .CLIENT = none
    ∧ pListen.sendData .CLIENT [9, 9] = pListen
    ∧ pConn.handlerOf .SERVER = some (startedHandler .SERVER ("203.0.113.5", 443))
    ∧ (pConn.sendData .SERVER [7]).handlerOf .SERVER
        = some ((startedHandler .SERVER ("203.0.113.5", 443)).send [7]) :=
  ⟨by decide,
   (sendData_missing_handler_noop pListen .CLIENT [9, 9]).1 (by decide),
   by decide,
   (sendData_missing_handler_noop pConn .SERVER [7]).2
     (startedHandler .SERVER ("203.0.113.5", 443)) (by decide)⟩

/-- C9: getClient (resp. getServer) returns (None, None) exactly when
the corresponding handler is absent, never raising (the model is a
total function); when the handler exists it returns the peer host and
port, which are set from getpeername at construction and which no
handler operation (send, stop, queue drain, cleanup, run entry) ever
mutates. -/
theorem getClient_getServer_peer :
    (∀ p : Proxy, p.client = none → p.getClient = (none, none))
    ∧ (∀ p : Proxy, p.server = none → p.getServer = (none, none))
    ∧ (∀ (p : Proxy) (c : SocketHandler), p.client = some c →
        p.getClient = (some c.host, some c.port))
    ∧ (∀ (p : Proxy) (s : SocketHandler), p.server = some s →
        p.getServer = (some s.host, some s.port))
    ∧ (∀ (role : ESocketRole) (peer : String × Nat),
        (SocketHandler.init role peer).host = peer.1
        ∧ (SocketHandler.init role peer).port = peer.2)
    ∧ (∀ (h : SocketHandler) (d : Bytes) (canSend : Bytes → Bool),
        (h.send d).host = h.host ∧ (h.send d).port = h.port
        ∧ h.stop.host = h.host ∧ h.stop.port = h.port
        ∧ (SocketHandler.sendQueue canSend h []).1.host = h.host
        ∧ (SocketHandler.sendQueue canSend h []).1.port = h.port
        ∧ (SocketHandler.cleanup canSend h).host = h.host
        ∧ (SocketHandler.cleanup canSend h).port = h.port
        ∧ (∀ h2, h.runEntry = .ok h2 → h2.host = h.host ∧ h2.port = h.port)) := by
  refine ⟨?_, ?_, ?_, ?_, ?_, ?_⟩
  · intro p h; simp [Proxy.getClient, h]
  · intro p h; simp [Proxy.getServer, h]
  · intro p c h; simp [Proxy.getClient, h, SocketHandler.getHost, SocketHandler.getPort]
  · intro p s h; simp [Proxy.getServer, h, SocketHandler.getHost, SocketHandler.getPort]
  · intro role peer; exact ⟨rfl, rfl⟩
  · intro h d canSend
    refine ⟨rfl, rfl, rfl, rfl, rfl, rfl, rfl, rfl, ?_⟩
    intro h2 hrun
    unfold SocketHandler.runEntry at hrun
    by_cases hs : h.sockAlive = true
    · simp [hs] at hrun
      exact ⟨by rw [← hrun], by rw [← hrun]⟩
    · simp [hs] at hrun

/-- Concrete instance of the getClient/getServer theorem on the
listening (no handlers) and connected (both handlers) fixtures. -/
theorem getClient_getServer_peer_witness :
    pListen.client = none ∧ pListen.getClient = (none, none)
    ∧ pConn.client = some (startedHandler .CLIENT ("192.0.2.7", 50123))
    ∧ pConn.getClient = (some (startedHandler .CLIENT ("192.0.2.7", 50123)).host,
        some (startedHandler .CLIENT ("192.0.2.7", 50123)).port)
    ∧ (SocketHandler.init .CLIENT ("192.0.2.7", 50123)).host = ("192.0.2.7", 50123).1
    ∧ (SocketHandler.init .CLIENT ("192.0.2.7", 50123)).port = ("192.0.2.7", 50123).2 :=
  ⟨by decide,
   getClient_getServer_peer.1 pListen (by decide),
   by decide,
   getClient_getServer_peer.2.2.1 pConn (startedHandler .CLIENT ("192.0.2.7", 50123)) (by decide),
   (getClient_getServer_peer.2.2.2.2.1 .CLIENT ("192.0.2.7", 50123)).1,
   (getClient_getServer_peer.2.2.2.2.1 .CLIENT ("192.0.2.7", 50123)).2⟩

/-- C10: getBind on a freshly constructed proxy is exactly the
(bindAddress, localPort) pair given to the constructor, and every
endpoint operation (shutdown, disconnect, sendData, the accept step, the
remote dial, a whole accept-loop iteration, and the shutdown epilogue)
leaves the bind address and local port untouched. -/
theorem getBind_immutable :
    (∀ (a r : String) (lp rp : Nat), (Proxy.init a r lp rp).getBind = (a, lp))
    ∧ (∀ p : Proxy, p.shutdown.getBind = p.getBind)
    ∧ (∀ p : Proxy, p.disconnect.getBind = p.getBind)
    ∧ (∀ (p : Proxy) (role : ESocketRole) (d : Bytes),
        (p.sendData role d).getBind = p.getBind)
    ∧ (∀ (p : Proxy) (acc : AcceptOutcome) (ctorOk : Bool),
        (p.waitForClient acc ctorOk).2.1.getBind = p.getBind)
    ∧ (∀ (p : Proxy) (connOk b : Bool) (p2 : Proxy),
        p.connect connOk = .ok (b, p2) → p2.getBind = p.getBind)
    ∧ (∀ (p : Proxy) (acc : AcceptOutcome) (ctorOk connOk : Bool) (p2 : Proxy)
        (evs : List REvent),
        p.runIteration acc ctorOk connOk = .ok (p2, evs) → p2.getBind = p.getBind)
    ∧ (∀ p : Proxy, p.runShutdown.1.getBind = p.getBind) := by
  have hwait : ∀ (p : Proxy) (acc : AcceptOutcome) (ctorOk : Bool),
      (p.waitForClient acc ctorOk).2.1.getBind = p.getBind := by
    intro p acc ctorOk
    cases acc with
    | timeout => rfl
    | accepted peer =>
      by_cases hc : ctorOk <;> simp [Proxy.waitForClient, hc, Proxy.getBind]
  have hconn : ∀ (p : Proxy) (connOk b : Bool) (p2 : Proxy),
      p.connect connOk = .ok (b, p2) → p2.getBind = p.getBind := by
    intro p connOk b p2 h
    unfold Proxy.connect at h
    by_cases hs : p.server.isSome = true
    · simp [hs] at h
    · by_cases hk : connOk = true <;> simp [hs, hk] at h <;>
        simp [← h.2, Proxy.getBind]
  refine ⟨fun a r lp rp => rfl, fun p => rfl, fun p => rfl, ?_, hwait, hconn, ?_, ?_⟩
  · intro p role d
    unfold Proxy.sendData
    cases hof : p.handlerOf role with
    | none => rfl
    | some sh => cases role <;> simp <;> rfl
  · intro p acc ctorOk connOk p2 evs h
    unfold Proxy.runIteration at h
    by_cases hw : (p.waitForClient acc ctorOk).1 = true
    · simp [hw] at h
      cases hcr : (p.waitForClient acc ctorOk).2.1.connect connOk with
      | error e => simp [hcr] at h
      | ok r =>
        obtain ⟨b, p3⟩ := r
        have hgb : p3.getBind = p.getBind := by
          rw [hconn (p.waitForClient acc ctorOk).2.1 connOk b p3 hcr, hwait p acc ctorOk]
        cases b with
        | true =>
          simp [hcr] at h
          rw [← h.1]
          simpa [Proxy.getBind] using hgb
        | false =>
          simp [hcr] at h
          rw [← h.1]
          simpa [Proxy.getBind] using hgb
    · simp [hw] at h
      have h1 := congrArg Prod.fst h
      simp at h1
      rw [← h1]
      exact hwait p acc ctorOk
  · intro p
    rfl

/-- Concrete instance of the getBind frame theorem: the constructor
equation, plus preservation through an accept-loop iteration of the
listening fixture. -/
theorem getBind_immutable_witness :
    (Proxy.init "127.0.0.1" "203.0.113.5" 8080 443).getBind = ("127.0.0.1", 8080)
    ∧ pListen.runIteration (.accepted ("192.0.2.7", 50123)) true true
        = .ok (pConn, [.acceptCall, .connectCall, .startClient, .startServer])
    ∧ pConn.getBind = pListen.getBind :=
  ⟨getBind_immutable.1 "127.0.0.1" "203.0.113.5" 8080 443,
   by rfl,
   getBind_immutable.2.2.2.2.2.2.1 pListen (.accepted ("192.0.2.7", 50123)) true true pConn
     [.acceptCall, .connectCall, .startClient, .startServer] (by rfl)⟩

/-- C4: when the packet-interception callback raises during dispatch of
received (non-empty) data, _recvData catches it, appends the error line
and a diagnostic trace for the output sink, and calls disconnect() on
the owning endpoint, after which the endpoint reports not connected and
both handler references are cleared; the function returns normally (the
handler thread does not crash) with the abort flag clear. -/
theorem interceptor_exception_contained (ph : PH) (h : SocketHandler) (p p1 : Proxy)
    (d : Bytes) (e : String) (out : List String)
    (hd : d.isEmpty = false) (hph : ph d p h.role = (p1, some e)) :
    SocketHandler.recvData ph h (.bytes d) p out
      = (out ++ [parseExcMsg h e, formatExc e], p1.disconnect, some d, false)
    ∧ (p1.disconnect).getIsConnected = false
    ∧ (p1.disconnect).client = none
    ∧ (p1.disconnect).server = none := by
  refine ⟨?_, rfl, rfl, rfl⟩
  simp [SocketHandler.recvData, hd, hph]

/-- Concrete instance of the interceptor-exception theorem with an
always-raising packet handler. -/
theorem interceptor_exception_contained_witness :
    SocketHandler.recvData phBoom hRecv (.bytes [1]) pListen []
      = ([] ++ [parseExcMsg hRecv "boom", formatExc "boom"], pListen.disconnect, some [1], false)
    ∧ (pListen.disconnect).getIsConnected = false
    ∧ (pListen.disconnect).client = none
    ∧ (pListen.disconnect).server = none :=
  interceptor_exception_contained phBoom hRecv pListen pListen [1] "boom" [] (by decide) rfl

/-- C5: a zero-length read makes _recvData report the socket-disconnect
error line and return abort (the handler loop treats abort as fatal and
disconnects the endpoint, as the third conjunct shows on a read-ready
loop iteration), and the packet-interception callback is never invoked
with an empty buffer: the result of _recvData is unchanged under any
modification of the callback's behaviour on empty input. -/
theorem zero_length_read_fatal :
    (∀ (ph : PH) (h : SocketHandler) (p : Proxy) (out : List String),
      SocketHandler.recvData ph h (.bytes []) p out
        = (out ++ [recvExcMsg h "Socket Disconnected"], p, some [], true))
    ∧ (∀ (ph ph' : PH) (h : SocketHandler) (r : RecvResult) (p : Proxy) (out : List String),
        (∀ (d : Bytes) (pr : Proxy) (role : ESocketRole), d ≠ [] → ph d pr role = ph' d pr role) →
        SocketHandler.recvData ph h r p out = SocketHandler.recvData ph' h r p out)
    ∧ (∀ (ph : PH) (canSend : Bytes → Bool) (h : SocketHandler) (rw : Bool) (p : Proxy),
        (SocketHandler.loopIteration ph canSend h true rw (.bytes []) p).2.1 = p.disconnect) := by
  refine ⟨?_, ?_, ?_⟩
  · intro ph h p out
    rfl
  · intro ph ph' h r p out hagree
    cases r with
    | bytes d =>
      by_cases hd : d.isEmpty
      · simp [SocketHandler.recvData, hd]
      · have hne : d ≠ [] := by simpa using hd
        simp [SocketHandler.recvData, hd, hagree d p h.role hne]
    | blockingErr => rfl
    | excErr e => rfl
  · intro ph canSend h rw p
    simp [SocketHandler.loopIteration, SocketHandler.recvData]

/-- Concrete instance of the zero-length-read theorem: two packet
handlers that differ only on the empty buffer produce identical
_recvData results on a received packet. -/
theorem zero_length_read_fatal_witness :
    SocketHandler.recvData phNone hRecv (.bytes [5]) pListen []
      = SocketHandler.recvData phEmptyDiff hRecv (.bytes [5]) pListen [] :=
  zero_length_read_fatal.2.1 phNone phEmptyDiff hRecv (.bytes [5]) pListen []
    (by
      intro d pr role hd
      simp [phNone, phEmptyDiff, hd])

/-- C1 (divergence of the code from the claimed invariant): the fixture
pConn is a reachable Connected state (connected flag set, both handlers
present and running); after shutdown() the run loop's shutdown path
stops and clears both handlers but leaves the connected flag set, so
getIsConnected() still returns true while both handlers are gone,
violating the claimed equivalence. -/
theorem isConnected_shutdown_stale :
    pConn.getIsConnected = true
    ∧ pConn.client.map SocketHandler.running = some true
    ∧ pConn.server.map SocketHandler.running = some true
    ∧ pConn.shutdown.runShutdown.1.getIsConnected = true
    ∧ pConn.shutdown.runShutdown.1.client = none
    ∧ pConn.shutdown.runShutdown.1.server = none := by
  decide

/-- C2 counterexample: from the reachable Connected fixture, the accept
loop's next iteration still enters accept() (the acceptCall event) and a
new client is accepted while the old one is connected: both old handlers
are stopped and the new client's handler is installed. -/
theorem new_client_accepted_while_connected_cex :
    pConn.getIsConnected = true
    ∧ pConn.runIteration (.accepted ("10.0.0.2", 40000)) true true
        = .ok ({ pConn with
                   client := some (startedHandler .CLIENT ("10.0.0.2", 40000))
                   server := some (startedHandler .SERVER ("203.0.113.5", 443)) },
               [.acceptCall, .stopClient, .joinClient, .stopServer, .joinServer,
                .connectCall, .startClient, .startServer]) :=
  ⟨by decide, by rfl⟩

/-- C2 amended: the accept loop re-enters accept() on every iteration
regardless of the Connected state; when a new client is accepted while
the endpoint is connected, _waitForClient stops and joins both existing
handlers (the same cleanup that handles a stale client) and replaces the
client with a handler for the new peer, after which a fresh remote
connect is attempted. -/
theorem accept_reentered_while_connected (p : Proxy) (peer : String × Nat)
    (hconn : p.connected = true) (hcl : p.client.isSome = true)
    (hsv : p.server.isSome = true) :
    p.runIteration (.accepted peer) true true
      = .ok ({ p with
                 client := some (startedHandler .CLIENT peer)
                 server := some (startedHandler .SERVER (p.remoteAddr, p.remotePort))
                 connected := true },
             [.acceptCall, .stopClient, .joinClient, .stopServer, .joinServer,
              .connectCall, .startClient, .startServer]) := by
  obtain ⟨c, hc⟩ := Option.isSome_iff_exists.mp hcl
  obtain ⟨s, hs⟩ := Option.isSome_iff_exists.mp hsv
  simp [Proxy.runIteration, Proxy.waitForClient, Proxy.connect, hc, hs,
    startedHandler, SocketHandler.init]

/-- Concrete instance of the amended C2 theorem on the Connected
fixture. -/
theorem accept_reentered_while_connected_witness :
    pConn.connected = true
    ∧ pConn.runIteration (.accepted ("10.0.0.2", 40000)) true true
        = .ok ({ pConn with
                   client := some (startedHandler .CLIENT ("10.0.0.2", 40000))
                   server := some (startedHandler .SERVER (pConn.remoteAddr, pConn.remotePort))
                   connected := true },
               [.acceptCall, .stopClient, .joinClient, .stopServer, .joinServer,
                .connectCall, .startClient, .startServer]) :=
  ⟨by decide,
   accept_reentered_while_connected pConn ("10.0.0.2", 40000) (by decide) (by decide) (by decide)⟩

/-- C6: from a Listening state (no handlers, not connected, not shut
down), an accepted client whose remote dial fails is discarded by
starting, stopping and joining its handler (the startClient, stopClient,
joinClient events), the server reference stays absent, the state stays
Listening, and a subsequent iteration can accept a new client and
connect it without any restart. -/
theorem connect_fail_back_to_listening (p : Proxy) (peer peer2 : String × Nat)
    (hcl : p.client = none) (hsv : p.server = none) (hconn : p.connected = false)
    (hsd : p.isShutdown = false) :
    p.runIteration (.accepted peer) true false
      = .ok ({ p with client := none, server := none },
             [.acceptCall, .connectCall, .startClient, .stopClient, .joinClient])
    ∧ ({ p with client := none, server := none } : Proxy).connected = false
    ∧ ({ p with client := none, server := none } : Proxy).isShutdown = false
    ∧ ({ p with client := none, server := none } : Proxy).runIteration
        (.accepted peer2) true true
      = .ok ({ p with
                 client := some (startedHandler .CLIENT peer2)
                 server := some (startedHandler .SERVER (p.remoteAddr, p.remotePort))
                 connected := true },
             [.acceptCall, .connectCall, .startClient, .startServer]) := by
  refine ⟨?_, by simpa using hconn, by simpa using hsd, ?_⟩
  · simp [Proxy.runIteration, Proxy.waitForClient, Proxy.connect, hcl, hsv]
  · simp [Proxy.runIteration, Proxy.waitForClient, Proxy.connect,
      startedHandler, SocketHandler.init]

/-- Concrete instance of the connect-failure recovery theorem on the
listening fixture. -/
theorem connect_fail_back_to_listening_witness :
    pListen.runIteration (.accepted ("192.0.2.7", 50123)) true false
      = .ok ({ pListen with client := none, server := none },
             [.acceptCall, .connectCall, .startClient, .stopClient, .joinClient])
    ∧ ({ pListen with client := none, server := none } : Proxy).connected = false
    ∧ ({ pListen with client := none, server := none } : Proxy).isShutdown = false
    ∧ ({ pListen with client := none, server := none } : Proxy).runIteration
        (.accepted ("198.51.100.2", 60000)) true true
      = .ok ({ pListen with
                 client := some (startedHandler .CLIENT ("198.51.100.2", 60000))
                 server := some (startedHandler .SERVER (pListen.remoteAddr, pListen.remotePort))
                 connected := true },
             [.acceptCall, .connectCall, .startClient, .startServer]) :=
  connect_fail_back_to_listening pListen ("192.0.2.7", 50123) ("198.51.100.2", 60000)
    rfl rfl rfl rfl
